import Mathlib

/-!
Verification of the scan-report formatting and filtering core of the
SCIO backend (files `src/utils/formatting.py`, `src/domain/services.py`,
`src/domain/models.py`, `src/infrastructure/repository.py`).

Numeric values flowing through the formatter are Python floats supplied as
short decimal literals; we embed them as exact decimal numbers (an integer
mantissa scaled by a power of ten).  Python's fixed-point formatting
`f"{v:.nf}"` is modelled as exact decimal rounding with ties broken to even,
which agrees with CPython on every value whose decimal expansion is exact at
the requested precision, and `str(v)` is modelled as the shortest decimal
rendering with at least one fractional digit, which agrees with CPython's
`repr` on floats denoted by short decimal literals.
-/

namespace SCIO

/-- An exact decimal number `mant / 10 ^ exp`, the embedding of the Python
float values handled by the formatter. -/
structure Dec where
  mant : Int
  exp : Nat
deriving DecidableEq, Repr

instance : OfNat Dec n := ⟨⟨n, 0⟩⟩

instance : OfScientific Dec :=
  ⟨fun m b e => if b then ⟨m, e⟩ else ⟨(m : Int) * 10 ^ e, 0⟩⟩

/-- The rational value denoted by a `Dec`. -/
def Dec.toRat (v : Dec) : ℚ := (v.mant : ℚ) / (10 : ℚ) ^ v.exp

/-- Integer division of `m` by `d` rounding to nearest, ties to even
(the rounding CPython's float formatting performs on exact values). -/
def divRoundHalfEven (m d : Int) : Int :=
  let q := Int.ediv m d
  let r := m - q * d
  if 2 * r < d then q
  else if d < 2 * r then q + 1
  else if q % 2 = 0 then q else q + 1

/-- The integer nearest to `v * 10 ^ n`, ties to even: the scaled mantissa
that `f"{v:.nf}"` renders. -/
def Dec.scaleTo (v : Dec) (n : Nat) : Int :=
  if v.exp ≤ n then v.mant * 10 ^ (n - v.exp)
  else divRoundHalfEven v.mant (10 ^ (v.exp - n))

/-- Render a nonnegative scaled mantissa `m` with `n` digits after the
decimal point (no point when `n = 0`). -/
def renderScaled (m : Nat) (n : Nat) : String :=
  if n = 0 then toString m
  else
    let s := toString m
    let s := if s.length < n + 1 then
        String.mk (List.replicate (n + 1 - s.length) '0') ++ s
      else s
    s.take (s.length - n) ++ "." ++ s.drop (s.length - n)

/-- Embedding of Python `f"{value:.nf}"` on exact decimal values. -/
def fmtFixed (v : Dec) (n : Nat) : String :=
  let m := v.scaleTo n
  (if m < 0 then "-" else "") ++ renderScaled m.natAbs n

/-- Embedding of Python `s.rstrip(c)` for a one-character strip set:
remove every trailing occurrence of `c`. -/
def rstrip (s : String) (c : Char) : String :=
  String.mk ((s.toList.reverse.dropWhile (fun x => x = c)).reverse)

/-- Embedding of Python `str(value)` on a float denoted by a short decimal
literal: the decimal expansion with insignificant trailing zeros removed,
keeping at least one digit after the point (CPython repr shows `42.0`,
not `42`). -/
def pyStr (v : Dec) : String :=
  if v.exp = 0 then toString v.mant ++ ".0"
  else
    let s := rstrip (fmtFixed v v.exp) '0'
    if s.toList.getLast? = some '.' then s ++ "0" else s

/-- Embedding of `_format_percent` in `src/utils/formatting.py`:
`f"{value:.3f}".rstrip("0").rstrip(".")` followed by `" %"`. -/
def format_percent (value : Dec) : String :=
  let rounded := rstrip (rstrip (fmtFixed value 3) '0') '.'
  rounded ++ " %"

/-- Embedding of `format_value` in `src/utils/formatting.py`.  Python's
`match unit` with string-literal patterns is sequential equality testing. -/
def format_value (value : Dec) (unit : String) : String :=
  if unit = "float_2_dig" then "(" ++ fmtFixed value 2 ++ ")"
  else if unit = "float_1_dig" then fmtFixed value 1
  else if unit = "%" then format_percent value
  else pyStr value

/-! ## Data model (`src/domain/models.py`) -/

/-- Embedding of `ScanResult`: a single named prediction from a scan. -/
structure ScanResult where
  parameter_name : String
  predicted_value : Dec
deriving DecidableEq, Repr

instance : Inhabited ScanResult := ⟨⟨"", 0⟩⟩

/-- Embedding of `Widget`: display configuration for scan parameters.
The per-parameter config dict `{'moisture': {'display_name': ..., 'unit': ...}}`
is embedded as an association list of association lists, with Python
`dict.get` modelled by first-match lookup. -/
structure Widget where
  id : Nat
  name : String
  algo_id : Nat
  param_config : List (String × List (String × String))
  param_order : List String
deriving DecidableEq, Repr

instance : Inhabited Widget := ⟨⟨0, "", 0, [], []⟩⟩

/-- Embedding of `Algo`. -/
structure Algo where
  id : Nat
  name : String
  version : Nat
deriving DecidableEq, Repr

instance : Inhabited Algo := ⟨⟨0, "", 0⟩⟩

/-- Embedding of `Scan`; `sampled_at` embeds the `datetime` as an integer
timeline point (datetimes are totally ordered and always truthy). -/
structure Scan where
  id : Nat
  user_id : String
  device_id : String
  widget_id : Nat
  algo_id : Nat
  sampled_at : Int
  results : List ScanResult
deriving DecidableEq, Repr

/-- Embedding of `ScanReportRow`. -/
structure ScanReportRow where
  sampled_at : Int
  user_id : String
  device_id : String
  widget_name : String
  algo_name : String
  formatted_results : String
deriving DecidableEq, Repr

/-- Python `dict.get(k)` on a string-keyed mapping embedded as an
association list: the value at the first matching key, or `none`. -/
def dictGet {α : Type} (m : List (String × α)) (k : String) : Option α :=
  (m.find? (fun p => p.1 == k)).map (fun p => p.2)

/-! ## Report formatter (`src/domain/services.py`, `_format_scan_results`) -/

/-- `results_by_name = {r.parameter_name: r for r in results}` followed by
`.get(name)`: a dict comprehension keeps the **last** entry per key, so the
lookup returns the last result bearing the name. -/
def resultLookup (results : List ScanResult) (name : String) : Option ScanResult :=
  results.reverse.find? (fun r => r.parameter_name == name)

/-- The loop `for r in results: if r.parameter_name not in ordered_names:
ordered_names.append(r.parameter_name)` of `_format_scan_results`, run from
the initial list `acc`. -/
def appendMissing (acc : List String) (results : List ScanResult) : List String :=
  results.foldl
    (fun acc r => if acc.contains r.parameter_name then acc else acc ++ [r.parameter_name])
    acc

/-- The `ordered_names` list `_format_scan_results` computes: an explicit
non-empty order (Python truthiness of a list) is used first with unseen
result names appended, otherwise names in result order. -/
def orderedNames (results : List ScanResult) (param_order : List String) : List String :=
  if param_order.isEmpty then results.map (fun r => r.parameter_name)
  else appendMissing param_order results

/-- The entry `f"{display_name}: {val_str}"` rendered for one result:
config lookup with default `{}`, `display_name` defaulting to the raw
parameter name, `unit` defaulting to `""`. -/
def entryFor (param_config : List (String × List (String × String)))
    (r : ScanResult) : String :=
  let conf := (dictGet param_config r.parameter_name).getD []
  let display_name := (dictGet conf "display_name").getD r.parameter_name
  let unit := (dictGet conf "unit").getD ""
  display_name ++ ": " ++ format_value r.predicted_value unit

/-- Embedding of `AnalysisService._format_scan_results`: order the names,
render each name that has a matching result (missing names are skipped by
the `if not res: continue` guard), join with `", "` and wrap in braces. -/
def format_scan_results (results : List ScanResult)
    (param_config : List (String × List (String × String)))
    (param_order : List String) : String :=
  let names := orderedNames results param_order
  let parts := names.filterMap
    (fun n => (resultLookup results n).map (fun r => entryFor param_config r))
  "\x7b" ++ String.intercalate ", " parts ++ "\x7d"

/-! ## Store (`src/infrastructure/repository.py`) -/

/-- Embedding of `Database`: the scans dict's values in insertion order,
and the widget/algo dicts as association lists keyed by id. -/
structure Database where
  scans : List Scan
  widgets : List (Nat × Widget)
  algos : List (Nat × Algo)
deriving Repr

/-- Embedding of `Database.get_widget`: `self._widgets.get(widget_id)`. -/
def get_widget (db : Database) (widget_id : Nat) : Option Widget :=
  (db.widgets.find? (fun p => p.1 == widget_id)).map (fun p => p.2)

/-- Embedding of `Database.get_algo`: `self._algos.get(algo_id)`. -/
def get_algo (db : Database) (algo_id : Nat) : Option Algo :=
  (db.algos.find? (fun p => p.1 == algo_id)).map (fun p => p.2)

/-- Python truthiness of an `Optional[str]` argument: `None` and `""` are
falsy, every other string is truthy. -/
def strTruthy : Option String → Bool
  | none => false
  | some s => !(s == "")

/-- Embedding of `Database.list_scans`: four successive conditional
filters; a string criterion applies only when truthy, a datetime criterion
whenever present (datetimes are always truthy). -/
def list_scans (scans : List Scan) (user_id device_id : Option String)
    (from_date to_date : Option Int) : List Scan :=
  let r := scans
  let r := if strTruthy user_id then r.filter (fun s => s.user_id == user_id.getD "") else r
  let r := if strTruthy device_id then r.filter (fun s => s.device_id == device_id.getD "") else r
  let r := match from_date with
    | some t => r.filter (fun s => t ≤ s.sampled_at)
    | none => r
  let r := match to_date with
    | some t => r.filter (fun s => s.sampled_at ≤ t)
    | none => r
  r

/-! ## Report generation (`AnalysisService.get_scan_report`) -/

/-- The row built for a scan once its widget and algo are resolved. -/
def mkRow (scan : Scan) (widget : Widget) (algo : Algo) : ScanReportRow :=
  { sampled_at := scan.sampled_at
    user_id := scan.user_id
    device_id := scan.device_id
    widget_name := widget.name
    algo_name := algo.name
    formatted_results :=
      format_scan_results scan.results widget.param_config widget.param_order }

/-- Embedding of `AnalysisService.get_scan_report`: list the matching scans,
skip any whose widget or algo fails to resolve (`if not widget or not algo:
continue` — dataclass instances are truthy, `None` is falsy), and append one
row per remaining scan. -/
def get_scan_report (db : Database) (user_id device_id : Option String)
    (from_date to_date : Option Int) : List ScanReportRow :=
  (list_scans db.scans user_id device_id from_date to_date).filterMap
    (fun scan =>
      match get_widget db scan.widget_id, get_algo db scan.algo_id with
      | some widget, some algo => some (mkRow scan widget algo)
      | _, _ => none)

/-! ## Spec-side definitions

These render the specification's wording of the display-order algorithm,
to be compared with the definitions embedded from the source. -/

/-- Spec wording: the result names absent from `seen`, listed in their
order of appearance, each name once. -/
def specLeftoverNames : List String → List String → List String
  | [], _ => []
  | n :: rest, seen =>
    if seen.contains n then specLeftoverNames rest seen
    else n :: specLeftoverNames rest (n :: seen)

/-- Spec wording of the display order: the explicit order list when one is
declared (non-empty), followed by the result names absent from it in
appearance order; otherwise the natural order of the results. -/
def specOrderedNames (results : List ScanResult) (param_order : List String) :
    List String :=
  if param_order = [] then results.map (fun r => r.parameter_name)
  else param_order ++ specLeftoverNames (results.map (fun r => r.parameter_name)) param_order

/-- The names that actually get an entry in the formatted string: the
ordered names that have a matching result. -/
def renderedNames (results : List ScanResult) (param_order : List String) :
    List String :=
  (orderedNames results param_order).filter (fun n => (resultLookup results n).isSome)

/-- Whether both the widget and the algo of a scan resolve in the store. -/
def resolvable (db : Database) (s : Scan) : Bool :=
  (get_widget db s.widget_id).isSome && (get_algo db s.algo_id).isSome

/-- The conjunction of the supplied `list_scans` criteria as one predicate:
exact user match, exact device match, inclusive date bounds; an absent (or
falsy) criterion imposes no constraint. -/
def scanMatches (user_id device_id : Option String)
    (from_date to_date : Option Int) (s : Scan) : Bool :=
  (!strTruthy user_id || s.user_id == user_id.getD "")
    && (!strTruthy device_id || s.device_id == device_id.getD "")
    && (match from_date with | some t => decide (t ≤ s.sampled_at) | none => true)
    && (match to_date with | some t => decide (s.sampled_at ≤ t) | none => true)

/-! ## Helper lemmas -/

theorem dictGet_nil {α : Type} (k : String) :
    dictGet ([] : List (String × α)) k = none := rfl

/-- Collapsing `filterMap` over option-valued `h` post-composed with `map g`
into a `filter`/`map` pair. -/
theorem filterMap_opt_map {α β γ : Type} (h : α → Option β) (g : β → γ)
    (dflt : β) (l : List α) :
    l.filterMap (fun a => (h a).map g)
      = (l.filter (fun a => (h a).isSome)).map (fun a => g ((h a).getD dflt)) := by
  induction l with
  | nil => rfl
  | cons a t ih =>
    cases hh : h a <;> simp [List.filterMap_cons, List.filter_cons, hh, ih]

theorem contains_append {α : Type} [BEq α] (l₁ l₂ : List α) (a : α) :
    (l₁ ++ l₂).contains a = (l₁.contains a || l₂.contains a) := by
  simp [List.contains_eq_any_beq]

theorem specLeftoverNames_cons (n : String) (rest seen : List String) :
    specLeftoverNames (n :: rest) seen
      = if seen.contains n then specLeftoverNames rest seen
        else n :: specLeftoverNames rest (n :: seen) := rfl

/-- `specLeftoverNames` only inspects membership of the seen list. -/
theorem specLeftoverNames_congr :
    ∀ (l : List String) (s₁ s₂ : List String),
      (∀ x, s₁.contains x = s₂.contains x) →
      specLeftoverNames l s₁ = specLeftoverNames l s₂ := by
  intro l
  induction l with
  | nil => intro s₁ s₂ _; rfl
  | cons n rest ih =>
    intro s₁ s₂ h
    rw [specLeftoverNames_cons, specLeftoverNames_cons, h n]
    cases hc : s₂.contains n with
    | false =>
      have h2 : (if false = true then specLeftoverNames rest s₁
          else n :: specLeftoverNames rest (n :: s₁))
          = n :: specLeftoverNames rest (n :: s₁) := rfl
      have h3 : (if false = true then specLeftoverNames rest s₂
          else n :: specLeftoverNames rest (n :: s₂))
          = n :: specLeftoverNames rest (n :: s₂) := rfl
      rw [h2, h3, ih (n :: s₁) (n :: s₂)
        (fun x => by simp only [List.contains_cons, h x])]
    | true =>
      show specLeftoverNames rest s₁ = specLeftoverNames rest s₂
      exact ih s₁ s₂ h

/-- The append-if-unseen loop of `_format_scan_results` computes exactly the
spec's leftover names (absent from the accumulated list, in appearance
order, deduplicated), appended to the accumulator. -/
theorem appendMissing_eq_spec :
    ∀ (results : List ScanResult) (acc : List String),
      appendMissing acc results
        = acc ++ specLeftoverNames (results.map (fun r => r.parameter_name)) acc := by
  intro results
  induction results with
  | nil => intro acc; simp [appendMissing, specLeftoverNames]
  | cons r rest ih =>
    intro acc
    have hstep : appendMissing acc (r :: rest)
        = appendMissing (if acc.contains r.parameter_name then acc
            else acc ++ [r.parameter_name]) rest := rfl
    rw [hstep]
    cases hc : acc.contains r.parameter_name with
    | true =>
      show appendMissing acc rest
          = acc ++ specLeftoverNames ((r :: rest).map (fun r => r.parameter_name)) acc
      rw [ih acc, List.map_cons, specLeftoverNames_cons, hc]
      rfl
    | false =>
      have hcong : specLeftoverNames (rest.map (fun r => r.parameter_name))
            (acc ++ [r.parameter_name])
          = specLeftoverNames (rest.map (fun r => r.parameter_name))
            (r.parameter_name :: acc) :=
        specLeftoverNames_congr _ _ _
          (fun x => by
            rw [contains_append]
            simp [List.contains_cons, Bool.or_comm])
      show appendMissing (acc ++ [r.parameter_name]) rest
          = acc ++ specLeftoverNames ((r :: rest).map (fun r => r.parameter_name)) acc
      rw [ih (acc ++ [r.parameter_name]), hcong, List.map_cons,
        specLeftoverNames_cons, hc]
      simp [List.append_assoc]

/-- The `ordered_names` the code computes coincide with the spec's
description of the display order. -/
theorem orderedNames_eq_spec (results : List ScanResult) (param_order : List String) :
    orderedNames results param_order = specOrderedNames results param_order := by
  cases param_order with
  | nil => rfl
  | cons a t =>
    simp [orderedNames, specOrderedNames, appendMissing_eq_spec]

theorem find?_eq_head?_filter {α : Type} (p : α → Bool) :
    ∀ l : List α, l.find? p = (l.filter p).head? := by
  intro l
  induction l with
  | nil => rfl
  | cons a t ih =>
    cases ha : p a with
    | false =>
      rw [List.find?_cons_of_neg _ (by simp [ha]),
        List.filter_cons_of_neg (by simp [ha]), ih]
    | true =>
      rw [List.find?_cons_of_pos _ ha, List.filter_cons_of_pos ha]
      rfl

/-- The dict-comprehension lookup returns the last result carrying the
name. -/
theorem resultLookup_eq_getLast (results : List ScanResult) (name : String) :
    resultLookup results name
      = (results.filter (fun r => r.parameter_name == name)).getLast? := by
  unfold resultLookup
  rw [find?_eq_head?_filter, List.filter_reverse, List.head?_reverse]

/-- Every result present in the list is found by the lookup under its own
name. -/
theorem resultLookup_isSome_of_mem {results : List ScanResult} {r : ScanResult}
    (h : r ∈ results) : (resultLookup results r.parameter_name).isSome := by
  unfold resultLookup
  rw [List.find?_isSome]
  exact ⟨r, by simpa using h, by simp⟩

/-! ## Claim theorems -/

/-- C1: the specification states `format_value(8.234, "float_2_dig")` equals
`"8.23"` (two fixed decimal places and nothing else).  The code instead
wraps the two-decimal rendering in parentheses and returns `"(8.23)"`,
contradicting the repository's own unit test, which asserts the bare
`"8.23"`.  This theorem evaluates the embedded code at the failing input. -/
theorem format_value_float_2_dig_emits_parentheses :
    format_value (8.234 : Dec) "float_2_dig" = "(8.23)" ∧
    ("(8.23)" : String) ≠ "8.23" :=
  ⟨by decide, by decide⟩

/-- C3: for every value `v`, `format_value v "%"` is `v` rendered to three
fixed decimals with trailing zeros and a trailing decimal point stripped,
followed by a space and `%`; in particular `10.512 → "10.512 %"`,
`10.5 → "10.5 %"`, `10.0 → "10 %"`. -/
theorem format_value_percent_spec :
    (∀ v : Dec, format_value v "%" = rstrip (rstrip (fmtFixed v 3) '0') '.' ++ " %")
    ∧ format_value (10.512 : Dec) "%" = "10.512 %"
    ∧ format_value (10.5 : Dec) "%" = "10.5 %"
    ∧ format_value (10.0 : Dec) "%" = "10 %" :=
  ⟨fun _ => rfl, by decide, by decide, by decide⟩

/-- C7: when a parameter name is absent from the widget's parameter-config
mapping, or the mapping entry lacks the `display_name`/`unit` fields, the
rendered entry uses the raw parameter name as display name and the empty
string as unit; no error is possible (the function is total). -/
theorem entry_metadata_defaults :
    (∀ (param_config : List (String × List (String × String))) (r : ScanResult),
        dictGet param_config r.parameter_name = none →
        entryFor param_config r
          = r.parameter_name ++ ": " ++ format_value r.predicted_value "")
    ∧ (∀ (param_config : List (String × List (String × String)))
        (r : ScanResult) (conf : List (String × String)),
        dictGet param_config r.parameter_name = some conf →
        dictGet conf "display_name" = none →
        dictGet conf "unit" = none →
        entryFor param_config r
          = r.parameter_name ++ ": " ++ format_value r.predicted_value "") := by
  constructor
  · intro pc r h
    simp [entryFor, h, dictGet_nil]
  · intro pc r conf h h1 h2
    simp [entryFor, h, h1, h2]

/-- Witness for C7: a config with no entry for `"moisture"` falls back to
the raw name and the empty unit. -/
theorem entry_metadata_defaults_witness :
    entryFor [] ⟨"moisture", (14.5 : Dec)⟩
      = "moisture" ++ ": " ++ format_value (14.5 : Dec) "" :=
  entry_metadata_defaults.1 [] ⟨"moisture", (14.5 : Dec)⟩ (by decide)

/-- C8: any unit other than the three exactly-matched specifiers (including
the empty string) falls through to Python's default float rendering
`str(v)`; in particular `format_value 42.0 "" = "42.0"`. -/
theorem format_value_default_spec :
    (∀ (v : Dec) (u : String),
        u ≠ "float_2_dig" → u ≠ "float_1_dig" → u ≠ "%" →
        format_value v u = pyStr v)
    ∧ format_value (42.0 : Dec) "" = "42.0" := by
  constructor
  · intro v u h1 h2 h3
    unfold format_value
    rw [if_neg h1, if_neg h2, if_neg h3]
  · decide

/-- Witness for C8: the unknown unit `"unknown"` renders via `str`. -/
theorem format_value_default_spec_witness :
    format_value (42.0 : Dec) "unknown" = pyStr (42.0 : Dec) :=
  format_value_default_spec.1 (42.0 : Dec) "unknown"
    (by decide) (by decide) (by decide)

/-- C9: a formatted-results string is exactly the rendered
`"<display name>: <value>"` entries joined by `", "` and wrapped in braces,
and an empty results list yields exactly `"{}"` whatever the widget
declares. -/
theorem format_scan_results_shape :
    (∀ (results : List ScanResult)
        (param_config : List (String × List (String × String)))
        (param_order : List String),
        format_scan_results results param_config param_order
          = "\x7b" ++ String.intercalate ", "
              ((orderedNames results param_order).filterMap
                (fun n => (resultLookup results n).map (entryFor param_config)))
              ++ "\x7d")
    ∧ (∀ (param_config : List (String × List (String × String)))
        (param_order : List String),
        format_scan_results [] param_config param_order = "\x7b\x7d") := by
  constructor
  · intro results pc po
    rfl
  · intro pc po
    have h2 : List.filterMap
        (fun n => Option.map (fun r => entryFor pc r) (resultLookup [] n))
        (orderedNames [] po) = [] :=
      List.filterMap_eq_nil_iff.mpr (fun a _ => rfl)
    show "\x7b" ++ String.intercalate ", "
        (((orderedNames [] po).filterMap
          (fun n => (resultLookup [] n).map (fun r => entryFor pc r)))) ++ "\x7d" = "\x7b\x7d"
    rw [h2]
    decide

/-- `list_scans` is one filter by the conjunction of the supplied
criteria. -/
theorem list_scans_eq_filter (scans : List Scan) (u d : Option String)
    (fd td : Option Int) :
    list_scans scans u d fd td = scans.filter (scanMatches u d fd td) := by
  unfold list_scans scanMatches
  cases hu : strTruthy u <;> cases hd : strTruthy d <;>
    cases fd <;> cases td <;>
      simp [hu, hd, List.filter_filter, Bool.and_assoc, Bool.and_comm,
        Bool.and_left_comm]

/-- C2: the sequence of rendered parameters is the spec's display order —
the explicit order list (when non-empty) followed by result names absent
from it in appearance order, or the natural result order when no order is
declared — restricted to names that have a matching result; listed names
with no matching result produce no entry. -/
theorem rendered_parameter_order_spec :
    ∀ (results : List ScanResult)
      (param_config : List (String × List (String × String)))
      (param_order : List String),
      format_scan_results results param_config param_order
        = "\x7b" ++ String.intercalate ", "
            ((renderedNames results param_order).map
              (fun n => entryFor param_config ((resultLookup results n).getD default)))
            ++ "\x7d"
      ∧ renderedNames results param_order
        = (specOrderedNames results param_order).filter
            (fun n => (resultLookup results n).isSome) := by
  intro results pc po
  constructor
  · show "\x7b" ++ String.intercalate ", "
        ((orderedNames results po).filterMap
          (fun n => (resultLookup results n).map (fun r => entryFor pc r))) ++ "\x7d" = _
    rw [filterMap_opt_map (resultLookup results) (fun r => entryFor pc r) default]
    rfl
  · unfold renderedNames
    rw [orderedNames_eq_spec]

/-- C10: the dict-comprehension lookup makes the last result with a given
name win; with no explicit order, a duplicated name yields one rendered
entry per occurrence, each showing the last value — concretely, results
`[a ↦ 1.0, a ↦ 2.0]` format as `"{a: 2.0, a: 2.0}"`. -/
theorem duplicate_names_last_value_wins :
    (∀ (results : List ScanResult) (name : String),
        resultLookup results name
          = (results.filter (fun r => r.parameter_name == name)).getLast?)
    ∧ (∀ (results : List ScanResult)
        (param_config : List (String × List (String × String))),
        format_scan_results results param_config []
          = "\x7b" ++ String.intercalate ", "
              (results.map (fun r =>
                entryFor param_config
                  ((resultLookup results r.parameter_name).getD default)))
              ++ "\x7d")
    ∧ format_scan_results [⟨"a", (1.0 : Dec)⟩, ⟨"a", (2.0 : Dec)⟩] [] []
        = "\x7ba: 2.0, a: 2.0\x7d" := by
  refine ⟨resultLookup_eq_getLast, ?_, by decide⟩
  intro results pc
  show "\x7b" ++ String.intercalate ", "
      ((orderedNames results []).filterMap
        (fun n => (resultLookup results n).map (fun r => entryFor pc r))) ++ "\x7d" = _
  have h1 : orderedNames results [] = results.map (fun r => r.parameter_name) := rfl
  rw [h1, List.filterMap_map]
  have h2 : ((fun n => (resultLookup results n).map (fun r => entryFor pc r)) ∘
        (fun r : ScanResult => r.parameter_name))
      = fun a : ScanResult =>
          (resultLookup results a.parameter_name).map (fun r => entryFor pc r) := rfl
  rw [h2,
    filterMap_opt_map (fun r : ScanResult => resultLookup results r.parameter_name)
      (fun r => entryFor pc r) default,
    List.filter_eq_self.mpr (fun r hr => resultLookup_isSome_of_mem hr)]

/-- C4: for every record collection and combination of optional criteria,
`list_scans` returns a sublist (hence subset) of the unfiltered collection,
equal to the records satisfying the conjunction of all supplied criteria
(exact id matches, inclusive date bounds), and equal to the sequential
intersection obtained by applying the criteria one after another. -/
theorem list_scans_filter_semantics :
    ∀ (scans : List Scan) (user_id device_id : Option String)
      (from_date to_date : Option Int),
      (list_scans scans user_id device_id from_date to_date).Sublist scans
      ∧ list_scans scans user_id device_id from_date to_date
          = scans.filter (scanMatches user_id device_id from_date to_date)
      ∧ list_scans scans user_id device_id from_date to_date
          = list_scans (list_scans (list_scans
              (list_scans scans user_id none none none)
              none device_id none none)
              none none from_date none)
              none none none to_date := by
  intro scans u d fd td
  refine ⟨?_, list_scans_eq_filter scans u d fd td, ?_⟩
  · rw [list_scans_eq_filter]
    exact List.filter_sublist scans
  · simp only [list_scans_eq_filter]
    unfold scanMatches
    cases hu : strTruthy u <;> cases hd : strTruthy d <;> cases fd <;> cases td <;>
      simp [hu, hd, strTruthy, List.filter_filter, Bool.and_assoc, Bool.and_comm,
        Bool.and_left_comm]

/-- C5: an unsupplied (`None`) or empty-string user/device criterion imposes
no constraint — Python truthiness makes `""` behave exactly like `None`, so
an empty string is never interpreted as matching only records whose field is
empty. -/
theorem list_scans_empty_string_no_filter :
    (∀ (scans : List Scan) (device_id : Option String) (from_date to_date : Option Int),
        list_scans scans (some "") device_id from_date to_date
          = list_scans scans none device_id from_date to_date)
    ∧ (∀ (scans : List Scan) (user_id : Option String) (from_date to_date : Option Int),
        list_scans scans user_id (some "") from_date to_date
          = list_scans scans user_id none from_date to_date) :=
  ⟨fun _ _ _ _ => rfl, fun _ _ _ _ => rfl⟩

/-- C6: a scan whose widget id or algo id fails to resolve is silently
skipped — the report is exactly one row per resolvable retained scan, so an
unresolvable scan contributes zero rows while every resolvable one is still
reported (and the function is total, so no error is raised). -/
theorem get_scan_report_skips_unresolvable :
    ∀ (db : Database) (user_id device_id : Option String)
      (from_date to_date : Option Int),
      get_scan_report db user_id device_id from_date to_date
        = ((list_scans db.scans user_id device_id from_date to_date).filter
            (resolvable db)).map
            (fun s => mkRow s ((get_widget db s.widget_id).getD default)
              ((get_algo db s.algo_id).getD default))
      ∧ (get_scan_report db user_id device_id from_date to_date).length
          = ((list_scans db.scans user_id device_id from_date to_date).filter
              (resolvable db)).length := by
  intro db u d fd td
  have key : ∀ l : List Scan,
      l.filterMap (fun scan =>
        match get_widget db scan.widget_id, get_algo db scan.algo_id with
        | some w, some a => some (mkRow scan w a)
        | _, _ => none)
      = (l.filter (resolvable db)).map
          (fun s => mkRow s ((get_widget db s.widget_id).getD default)
            ((get_algo db s.algo_id).getD default)) := by
    intro l
    induction l with
    | nil => rfl
    | cons s t ih =>
      cases hw : get_widget db s.widget_id <;>
        cases ha : get_algo db s.algo_id <;>
          simp [List.filterMap_cons, List.filter_cons, resolvable, hw, ha, ih]
  have h : get_scan_report db u d fd td
      = ((list_scans db.scans u d fd td).filter (resolvable db)).map
          (fun s => mkRow s ((get_widget db s.widget_id).getD default)
            ((get_algo db s.algo_id).getD default)) :=
    key (list_scans db.scans u d fd td)
  exact ⟨h, by rw [h, List.length_map]⟩

end SCIO

section SanityExamples
open SCIO
example : format_value (8.234 : Dec) "float_2_dig" = "(8.23)" := by decide
example : format_value (68.73 : Dec) "float_1_dig" = "68.7" := by decide
example : format_value (10.512 : Dec) "%" = "10.512 %" := by decide
example : format_value (10.5 : Dec) "%" = "10.5 %" := by decide
example : format_value (10.0 : Dec) "%" = "10 %" := by decide
example : format_value (42.0 : Dec) "" = "42.0" := by decide
example : format_value (123.456 : Dec) "unknown" = "123.456" := by decide
example : pyStr (14.5 : Dec) = "14.5" := by decide
example : format_value (0.0 : Dec) "%" = "0 %" := by decide

example :
    format_scan_results
      [⟨"protein", 8.234⟩, ⟨"moisture", 14.5⟩]
      [("moisture", [("name", "moisture"), ("display_name", "Moisture"), ("unit", "%")]),
       ("protein", [("name", "protein"), ("display_name", "Protein"), ("unit", "float_2_dig")])]
      ["moisture", "protein"]
    = "\x7bMoisture: 14.5 %, Protein: (8.23)\x7d" := by decide

example : format_scan_results [⟨"a", 1.0⟩, ⟨"a", 2.0⟩] [] []
    = "\x7ba: 2.0, a: 2.0\x7d" := by decide

example : format_scan_results [] [] ["x", "y"] = "\x7b\x7d" := by decide

example :
    (get_scan_report
      ⟨[⟨1, "u1", "d1", 7, 1, 5, []⟩, ⟨2, "u1", "d1", 1, 1, 6, []⟩],
       [(1, ⟨1, "W", 1, [], []⟩)], [(1, ⟨1, "A", 1⟩)]⟩
      none none none none).length = 1 := by decide
end SanityExamples
